import Mathlib

/-!
Shallow embedding of `src/performance_monitor.py` (class `PerformanceMonitor`).

Time values (`time.time()` readings) and all metric values are modelled as
rationals; clock readings are passed explicitly to each operation, since the
Python code reads the ambient wall clock.  Python lists become `List ℚ`,
the insertion-ordered dict `query_times_ms` becomes an association list
`List (String × List ℚ)` updated with Python-dict semantics (update in place
when the key exists, append a fresh key at the end otherwise).
-/

namespace PerfMon

/-- Mirror of a `psutil.disk_io_counters()` result: cumulative byte counters. -/
structure DiskIO where
  read_bytes : ℚ
  write_bytes : ℚ
  deriving Repr, DecidableEq

/-- The `self.metrics` dictionary initialised in `PerformanceMonitor.__init__`
(lines 17–26): six parallel arrays for the periodic samples, an
insertion-ordered map of per-query duration lists, and the event log. -/
structure Metrics where
  timestamp : List ℚ
  cpu_percent : List ℚ
  memory_percent : List ℚ
  memory_used_mb : List ℚ
  disk_read_mb : List ℚ
  disk_write_mb : List ℚ
  query_times_ms : List (String × List ℚ)
  events : List (ℚ × String)
  deriving Repr, DecidableEq

/-- Initial value of `self.metrics` in `__init__`: every series empty. -/
def Metrics.init : Metrics :=
  { timestamp := [], cpu_percent := [], memory_percent := [], memory_used_mb := []
  , disk_read_mb := [], disk_write_mb := [], query_times_ms := [], events := [] }

/-- The `self.system_info` snapshot captured in `__init__` (lines 34–40). -/
structure SystemInfo where
  os : String
  python_version : String
  cpu_count : ℕ
  total_memory_gb : ℚ
  duckdb_version : String
  deriving Repr, DecidableEq

/-- State of a `PerformanceMonitor` instance.  `monitor_thread` is `none`
while the attribute does not exist (before `start_monitoring` ever ran),
mirroring the `hasattr(self, 'monitor_thread')` check in `stop_monitoring`. -/
structure Monitor where
  output_dir : String
  metrics : Metrics
  start_time : ℚ
  last_disk_io : DiskIO
  last_disk_time : ℚ
  system_info : SystemInfo
  monitoring : Bool
  monitor_interval : ℚ
  monitor_thread : Option Unit
  deriving Repr, DecidableEq

/-- Constructor `PerformanceMonitor.__init__` (lines 14–45).  `now` is the `time.time()`
reading at line 27, `now2` the (no earlier) reading at line 29, `disk0` the
`psutil.disk_io_counters()` baseline seeded at line 28. -/
def Monitor.init (output_dir : String) (now now2 : ℚ) (disk0 : DiskIO)
    (si : SystemInfo) : Monitor :=
  { output_dir := output_dir
  , metrics := Metrics.init
  , start_time := now
  , last_disk_io := disk0
  , last_disk_time := now2
  , system_info := si
  , monitoring := false
  , monitor_interval := 1
  , monitor_thread := none }

/-- One reading of the ambient system probes consumed by `capture_point`:
the `time.time()` value at line 72, `psutil.cpu_percent` (line 76), the
process memory percent and RSS in bytes (lines 77–78), and the cumulative
disk counters (line 81). -/
structure ProbeReading where
  now : ℚ
  cpu_percent : ℚ
  memory_percent : ℚ
  memory_rss_bytes : ℚ
  disk_io : DiskIO
  deriving Repr, DecidableEq

/-- Mirror of `PerformanceMonitor.capture_point` (lines 70–100): compute the disk
throughput as a rate against the last-sample baseline (guarded against a
non-positive time delta), update the baseline unconditionally, and append
one value to each of the six parallel sample arrays. -/
def Monitor.capture_point (m : Monitor) (p : ProbeReading) : Monitor :=
  let now := p.now
  let current_disk_io := p.disk_io
  let io_time_diff := now - m.last_disk_time
  let read_diff :=
    if io_time_diff > 0 then
      (current_disk_io.read_bytes - m.last_disk_io.read_bytes) / io_time_diff / 1024 ^ 2
    else 0
  let write_diff :=
    if io_time_diff > 0 then
      (current_disk_io.write_bytes - m.last_disk_io.write_bytes) / io_time_diff / 1024 ^ 2
    else 0
  { m with
    last_disk_io := current_disk_io
    last_disk_time := now
    metrics := { m.metrics with
      timestamp := m.metrics.timestamp ++ [now - m.start_time]
      cpu_percent := m.metrics.cpu_percent ++ [p.cpu_percent]
      memory_percent := m.metrics.memory_percent ++ [p.memory_percent]
      memory_used_mb := m.metrics.memory_used_mb ++ [p.memory_rss_bytes / 1024 ^ 2]
      disk_read_mb := m.metrics.disk_read_mb ++ [read_diff]
      disk_write_mb := m.metrics.disk_write_mb ++ [write_diff] } }

/-- Mirror of `PerformanceMonitor.record_event` (lines 102–109): append
`{"time": now - self.start_time, "name": event_name}` to the event log and
return `now` (the absolute clock reading, per line 109 `return now`). -/
def Monitor.record_event (m : Monitor) (now : ℚ) (event_name : String) :
    Monitor × ℚ :=
  ({ m with metrics := { m.metrics with
      events := m.metrics.events ++ [(now - m.start_time, event_name)] } }, now)

/-- Python-dict membership test `query_name in self.metrics["query_times_ms"]`. -/
def qtMem (qt : List (String × List ℚ)) (name : String) : Bool :=
  qt.any fun p => p.1 = name

/-- Python-dict read `d[name]` on the duration map (first binding wins; a
Python dict holds each key once). -/
def qtGet (qt : List (String × List ℚ)) (name : String) : List ℚ :=
  match qt.find? (fun p => p.1 = name) with
  | some p => p.2
  | none => []

/-- Python-dict write `d[name] = v`: overwrite in place when the key exists,
otherwise append the new key at the end (insertion order preserved). -/
def qtSet (qt : List (String × List ℚ)) (name : String) (v : List ℚ) :
    List (String × List ℚ) :=
  if qtMem qt name then
    qt.map fun p => if p.1 = name then (p.1, v) else p
  else
    qt ++ [(name, v)]

/-- Result of an external operation handed to the timed wrapper: the query
either produces a value or raises. -/
abbrev OpResult (ε α : Type) := Except ε α

/-- Mirror of `PerformanceMonitor.record_query` (lines 111–129).  `t0` is the clock
reading of the "Query start" event, `t1` the `start_time` reading (line 114),
`t2` the `end_time` reading (line 119), `t3` the clock reading of the
"Query end" event.  When the wrapped operation raises, the exception
propagates out of line 117 before the duration or end event is recorded, so
the returned monitor carries only the start event.  Numeric formatting of
the duration in the end-event text is abstracted by `toString`. -/
def Monitor.record_query {ε α : Type} (m : Monitor) (query_name : String)
    (t0 t1 t2 t3 : ℚ) (op : OpResult ε α) : Monitor × OpResult ε (α × ℚ) :=
  let m1 := (m.record_event t0 ("Query start: " ++ query_name)).1
  match op with
  | .error e => (m1, .error e)
  | .ok result =>
    let duration_ms := (t2 - t1) * 1000
    let qt1 :=
      if qtMem m1.metrics.query_times_ms query_name then
        m1.metrics.query_times_ms
      else
        qtSet m1.metrics.query_times_ms query_name []
    let qt2 := qtSet qt1 query_name (qtGet qt1 query_name ++ [duration_ms])
    let m2 := { m1 with metrics := { m1.metrics with query_times_ms := qt2 } }
    let m3 := (m2.record_event t3
      ("Query end: " ++ query_name ++ " (" ++ toString duration_ms ++ "ms)")).1
    (m3, .ok (result, duration_ms))

/-- Mirror of `PerformanceMonitor.start_monitoring` (lines 47–55): store the interval,
flip the running flag, create the thread attribute, record the start event.
`now` is the clock reading of the `record_event` call. -/
def Monitor.start_monitoring (m : Monitor) (interval : ℚ) (now : ℚ) : Monitor :=
  let m1 := { m with
    monitor_interval := interval
    monitoring := true
    monitor_thread := some () }
  (m1.record_event now "Monitoring started").1

/-- Outcome of `stop_monitoring`: the updated monitor plus the timeout passed
to `Thread.join` when a join was attempted (`none` when the attribute check
skipped the join). -/
structure StopResult where
  monitor : Monitor
  join_timeout : Option ℚ
  deriving Repr, DecidableEq

/-- Mirror of `PerformanceMonitor.stop_monitoring` (lines 57–62): clear the running
flag, join the thread with a 2-second timeout when the `monitor_thread`
attribute exists, and record the stop event in every case.  `join_ok`
models whether the background loop exited within the timeout; `join`'s
return value is ignored by the source, so it cannot influence the state. -/
def Monitor.stop_monitoring (m : Monitor) (now : ℚ) (join_ok : Bool) :
    StopResult :=
  let m1 := { m with monitoring := false }
  let jt : Option ℚ := match m1.monitor_thread with
    | some _ => let _ := join_ok; some 2
    | none => none
  { monitor := (m1.record_event now "Monitoring stopped").1
  , join_timeout := jt }

/-! ### Serialization (`save_metrics`, lines 131–149)

`json.dump` preserves Python-dict insertion order, so the document is
modelled as an ordered tree of key–value objects, arrays and scalars. -/

/-- A JSON value; object fields keep insertion order, as `json.dump` does. -/
inductive JVal where
  | num : ℚ → JVal
  | str : String → JVal
  | arr : List JVal → JVal
  | obj : List (String × JVal) → JVal

/-- The keys of a JSON object, in order (`[]` on non-objects). -/
def JVal.keys : JVal → List String
  | .obj fields => fields.map Prod.fst
  | _ => []

/-- Field lookup in a JSON object. -/
def JVal.get (j : JVal) (k : String) : Option JVal :=
  match j with
  | .obj fields => (fields.find? fun p => p.1 = k).map Prod.snd
  | _ => none

/-- Serialization of `self.system_info` in its insertion order (lines 34–40). -/
def SystemInfo.toJson (si : SystemInfo) : JVal :=
  .obj [ ("os", .str si.os)
       , ("python_version", .str si.python_version)
       , ("cpu_count", .num si.cpu_count)
       , ("total_memory_gb", .num si.total_memory_gb)
       , ("duckdb_version", .str si.duckdb_version) ]

/-- One event dict `{"time": ..., "name": ...}` as appended by
`record_event`. -/
def eventToJson (e : ℚ × String) : JVal :=
  .obj [("time", .num e.1), ("name", .str e.2)]

/-- Serialization of `self.metrics` in the insertion order fixed at `__init__`
(lines 17–26). -/
def Metrics.toJson (ms : Metrics) : JVal :=
  .obj [ ("timestamp", .arr (ms.timestamp.map .num))
       , ("cpu_percent", .arr (ms.cpu_percent.map .num))
       , ("memory_percent", .arr (ms.memory_percent.map .num))
       , ("memory_used_mb", .arr (ms.memory_used_mb.map .num))
       , ("disk_read_mb", .arr (ms.disk_read_mb.map .num))
       , ("disk_write_mb", .arr (ms.disk_write_mb.map .num))
       , ("query_times_ms",
          .obj (ms.query_times_ms.map fun p => (p.1, .arr (p.2.map .num))))
       , ("events", .arr (ms.events.map eventToJson)) ]

/-- The `output_data` document written by `save_metrics` (lines 140–143). -/
def Monitor.save_metrics_doc (m : Monitor) : JVal :=
  .obj [ ("system_info", m.system_info.toJson)
       , ("metrics", m.metrics.toJson) ]

/-- The document shape asserted by the spec, stated from the spec's words:
`{ system_info: {os, cpu_count, total_memory_gb, engine_version},
metrics: { samples, events, query_durations } }`.  This definition follows
the SPEC, to be compared against `Monitor.save_metrics_doc`, which follows
the source. -/
def specDocShape (j : JVal) : Prop :=
  j.keys = ["system_info", "metrics"] ∧
  (j.get "system_info").map JVal.keys =
    some ["os", "cpu_count", "total_memory_gb", "engine_version"] ∧
  (j.get "metrics").map JVal.keys =
    some ["samples", "events", "query_durations"]

instance (j : JVal) : Decidable (specDocShape j) := by
  unfold specDocShape; infer_instance

/-! ### Report generation (`_generate_html_report`, lines 250–303)

The summary block of the HTML report, as an explicit computation.  Python
raises where the source would raise (`IndexError` on `timestamp[-1]` of an
empty list, `ZeroDivisionError` on `sum(times)/len(times)` for an empty
series), so the computation lives in `Except String`. -/

/-- Python's `sum(l) / len(l) if l else 0` — the guarded averages of lines 256, 258. -/
def avgOrZero (l : List ℚ) : ℚ :=
  if l ≠ [] then l.sum / l.length else 0

/-- Python's `max(l) if l else 0` — the guarded peaks of lines 257, 259. -/
def maxOrZero : List ℚ → ℚ
  | [] => 0
  | a :: l => l.foldl max a

/-- One row of the query-details table (lines 262–273). -/
structure QuerySummary where
  name : String
  avg_ms : ℚ
  min_ms : ℚ
  max_ms : ℚ
  count : ℕ
  deriving Repr, DecidableEq

/-- The per-operation summary loop of lines 262–273: `sum(times)/len(times)`
raises `ZeroDivisionError` and `min`/`max` raise `ValueError` on an empty
series, so each row is fallible; an empty map yields an empty list. -/
def querySummaries (qt : List (String × List ℚ)) :
    Except String (List QuerySummary) :=
  qt.mapM fun p =>
    match p.2 with
    | [] => .error "ZeroDivisionError"
    | a :: rest =>
      .ok { name := p.1
          , avg_ms := (a :: rest).sum / (a :: rest).length
          , min_ms := rest.foldl min a
          , max_ms := rest.foldl max a
          , count := (a :: rest).length }

/-- The summary statistics interpolated into the HTML report. -/
structure HtmlSummary where
  total_duration : ℚ
  avg_cpu : ℚ
  max_cpu : ℚ
  avg_memory : ℚ
  max_memory : ℚ
  queries : List QuerySummary
  deriving Repr, DecidableEq

/-- Summary computation of `_generate_html_report` (lines 255–303): the
averages and peaks are guarded against empty series (lines 256–259), the
query rows come from `querySummaries`, but the total-duration line
(line 298) evaluates `metrics["timestamp"][-1]`, which raises `IndexError`
when no sample was ever captured. -/
def generate_html_summary (ms : Metrics) : Except String HtmlSummary := do
  let avg_cpu := avgOrZero ms.cpu_percent
  let max_cpu := maxOrZero ms.cpu_percent
  let avg_memory := avgOrZero ms.memory_used_mb
  let max_memory := maxOrZero ms.memory_used_mb
  let queries ← querySummaries ms.query_times_ms
  match ms.timestamp.getLast? with
  | none => .error "IndexError"
  | some total_duration =>
    .ok { total_duration, avg_cpu, max_cpu, avg_memory, max_memory, queries }

/-- Mirror of `_plot_query_performance` (lines 220–248): returns early on an empty
map (line 224), otherwise produces the per-query average bar heights
(line 231), fallible on an empty series like the report rows. -/
def plot_query_avg_times (qt : List (String × List ℚ)) :
    Except String (List ℚ) :=
  if qt = [] then .ok []
  else qt.mapM fun p =>
    if p.2 ≠ [] then .ok (p.2.sum / p.2.length) else .error "ZeroDivisionError"

/-! ### Concurrency model

The Sampler loop and the foreground caller mutate `self.metrics` through
plain CPython list appends and dict stores with no lock; CPython serializes
each such primitive operation (the interpreter lock), so the observable
grain of atomicity is one append.  A concurrent execution is an
interleaving of the two contexts' sequences of atomic store actions, and a
snapshot may read the store between any two actions. -/

/-- One atomic mutation of `self.metrics`: a single list append or a dict
store, the unit CPython serializes. -/
inductive Act where
  | appendTimestamp : ℚ → Act
  | appendCpu : ℚ → Act
  | appendMemPct : ℚ → Act
  | appendMemMb : ℚ → Act
  | appendRead : ℚ → Act
  | appendWrite : ℚ → Act
  | appendEvent : ℚ → String → Act
  deriving Repr, DecidableEq

/-- Effect of one atomic action on the store. -/
def applyAct (ms : Metrics) : Act → Metrics
  | .appendTimestamp v => { ms with timestamp := ms.timestamp ++ [v] }
  | .appendCpu v => { ms with cpu_percent := ms.cpu_percent ++ [v] }
  | .appendMemPct v => { ms with memory_percent := ms.memory_percent ++ [v] }
  | .appendMemMb v => { ms with memory_used_mb := ms.memory_used_mb ++ [v] }
  | .appendRead v => { ms with disk_read_mb := ms.disk_read_mb ++ [v] }
  | .appendWrite v => { ms with disk_write_mb := ms.disk_write_mb ++ [v] }
  | .appendEvent t n => { ms with events := ms.events ++ [(t, n)] }

/-- Run a sequence of atomic actions against the store. -/
def applyActs (ms : Metrics) (l : List Act) : Metrics := l.foldl applyAct ms

/-- The six store actions issued by one `capture_point` call, in source
order (lines 95–100).  The sample is written field by field: six separate
appends, not one. -/
def captureActs (t cpu memPct memMb rd wr : ℚ) : List Act :=
  [ .appendTimestamp t, .appendCpu cpu, .appendMemPct memPct
  , .appendMemMb memMb, .appendRead rd, .appendWrite wr ]

/-- The single store action issued by one `record_event` call (line 105). -/
def recordActs (t : ℚ) (name : String) : List Act := [.appendEvent t name]

/-- Relation `Interleave l r t`: `t` is an interleaving of `l` and `r` — every
element of both, each sequence's elements in their original relative
order. -/
inductive Interleave {α : Type} : List α → List α → List α → Prop
  | nil : Interleave [] [] []
  | left (a : α) {l r t : List α} :
      Interleave l r t → Interleave (a :: l) r (a :: t)
  | right (a : α) {l r t : List α} :
      Interleave l r t → Interleave l (a :: r) (a :: t)

/-- A store state in which no sample is half-written: the six parallel
sample arrays have equal lengths, so every sample visible in `timestamp`
carries all of its fields. -/
def sampleAligned (ms : Metrics) : Prop :=
  ms.cpu_percent.length = ms.timestamp.length ∧
  ms.memory_percent.length = ms.timestamp.length ∧
  ms.memory_used_mb.length = ms.timestamp.length ∧
  ms.disk_read_mb.length = ms.timestamp.length ∧
  ms.disk_write_mb.length = ms.timestamp.length

instance (ms : Metrics) : Decidable (sampleAligned ms) := by
  unfold sampleAligned; infer_instance

/-- The event entry an action appends, if any. -/
def actEvent? : Act → Option (ℚ × String)
  | .appendEvent t n => some (t, n)
  | _ => none

/-- The timestamp entry an action appends, if any. -/
def actTimestamp? : Act → Option ℚ
  | .appendTimestamp v => some v
  | _ => none

/-- The event entries appended by a trace, in trace order. -/
def extractEvents (l : List Act) : List (ℚ × String) := l.filterMap actEvent?

/-- The timestamp entries appended by a trace, in trace order. -/
def extractTimestamps (l : List Act) : List ℚ := l.filterMap actTimestamp?

/-! ### Monotonicity invariant -/

/-- Predicate `monoUpTo l b`: the recorded values of `l` are non-decreasing and all
bounded by `b` (the elapsed value of the latest clock reading). -/
def monoUpTo (l : List ℚ) (b : ℚ) : Prop :=
  l.Chain' (· ≤ ·) ∧ ∀ x ∈ l, x ≤ b

instance (l : List ℚ) (b : ℚ) : Decidable (monoUpTo l b) := by
  unfold monoUpTo; infer_instance

/-- The invariant of claim C9 at external clock reading `t`: the elapsed
values in `samples` and in `events` are each non-decreasing, and none
exceeds `t - start_time`, the elapsed value of the latest reading. -/
def Chrono (m : Monitor) (t : ℚ) : Prop :=
  monoUpTo m.metrics.timestamp (t - m.start_time) ∧
  monoUpTo (m.metrics.events.map Prod.fst) (t - m.start_time)

instance (m : Monitor) (t : ℚ) : Decidable (Chrono m t) := by
  unfold Chrono; infer_instance

/-! ### Concrete fixtures used by counterexamples and witnesses -/

/-- A concrete `system_info` snapshot. -/
def si0 : SystemInfo :=
  { os := "posix", python_version := "3.12.0", cpu_count := 8
  , total_memory_gb := 16, duckdb_version := "v1.0.0" }

/-- A concrete disk-counter baseline. -/
def disk0 : DiskIO := { read_bytes := 0, write_bytes := 0 }

/-- A monitor constructed at clock reading 5. -/
def m0 : Monitor := Monitor.init "./performance_data" 5 5 disk0 si0

/-- A probe reading taken at clock reading 7: one mebibyte of resident
memory, two mebibytes of cumulative disk reads. -/
def pW : ProbeReading :=
  { now := 7, cpu_percent := 50, memory_percent := 10
  , memory_rss_bytes := 1048576
  , disk_io := { read_bytes := 2097152, write_bytes := 0 } }

/-- The monitor `m0` after `start_monitoring(interval=1)` at clock
reading 6: the running flag is set and the thread attribute exists. -/
def mStarted : Monitor := m0.start_monitoring 1 6

/-- An interleaved trace: the foreground `record_event` append lands between
the first and second of the six per-field appends of one `capture_point`. -/
def cexTrace : List Act :=
  [ .appendTimestamp 1, .appendEvent (3/2) "E", .appendCpu 50
  , .appendMemPct 10, .appendMemMb 100, .appendRead 0, .appendWrite 0 ]

/-! ### Trace lemmas -/

theorem applyActs_cons (ms : Metrics) (a : Act) (l : List Act) :
    applyActs ms (a :: l) = applyActs (applyAct ms a) l := rfl

theorem applyAct_events (ms : Metrics) (a : Act) :
    (applyAct ms a).events = ms.events ++ (actEvent? a).toList := by
  cases a <;> simp [applyAct, actEvent?]

theorem applyAct_timestamp (ms : Metrics) (a : Act) :
    (applyAct ms a).timestamp = ms.timestamp ++ (actTimestamp? a).toList := by
  cases a <;> simp [applyAct, actTimestamp?]

theorem extractEvents_cons (a : Act) (l : List Act) :
    extractEvents (a :: l) = (actEvent? a).toList ++ extractEvents l := by
  unfold extractEvents
  cases h : actEvent? a <;> simp [List.filterMap_cons, h]

theorem extractTimestamps_cons (a : Act) (l : List Act) :
    extractTimestamps (a :: l) =
      (actTimestamp? a).toList ++ extractTimestamps l := by
  unfold extractTimestamps
  cases h : actTimestamp? a <;> simp [List.filterMap_cons, h]

/-- Running a trace appends exactly the trace's event entries, in trace
order: per-append atomicity loses nothing. -/
theorem applyActs_events (ms : Metrics) (l : List Act) :
    (applyActs ms l).events = ms.events ++ extractEvents l := by
  induction l generalizing ms with
  | nil => simp [applyActs, extractEvents]
  | cons a l ih =>
    rw [applyActs_cons, ih, applyAct_events, extractEvents_cons,
      List.append_assoc]

/-- Running a trace appends exactly the trace's timestamp entries, in trace
order. -/
theorem applyActs_timestamp (ms : Metrics) (l : List Act) :
    (applyActs ms l).timestamp = ms.timestamp ++ extractTimestamps l := by
  induction l generalizing ms with
  | nil => simp [applyActs, extractTimestamps]
  | cons a l ih =>
    rw [applyActs_cons, ih, applyAct_timestamp, extractTimestamps_cons,
      List.append_assoc]

/-- Interleavings are stable under `filterMap`: projecting both contexts'
contributions out of an interleaved trace yields an interleaving of the
projections. -/
theorem interleave_filterMap {α β : Type} (f : α → Option β) {l r t : List α}
    (h : Interleave l r t) :
    Interleave (l.filterMap f) (r.filterMap f) (t.filterMap f) := by
  induction h with
  | nil => simpa using Interleave.nil
  | left a h ih =>
    cases hfa : f a with
    | none => simpa [List.filterMap_cons, hfa] using ih
    | some b =>
      simpa [List.filterMap_cons, hfa] using Interleave.left b ih
  | right a h ih =>
    cases hfa : f a with
    | none => simpa [List.filterMap_cons, hfa] using ih
    | some b =>
      simpa [List.filterMap_cons, hfa] using Interleave.right b ih

/-- Coherence: `capture_point` mutates the store exactly as its six-action trace does
(the coherence of the trace model with the state function). -/
theorem capture_point_eq_trace (m : Monitor) (p : ProbeReading) :
    ∃ rd wr, (m.capture_point p).metrics =
      applyActs m.metrics
        (captureActs (p.now - m.start_time) p.cpu_percent p.memory_percent
          (p.memory_rss_bytes / 1024 ^ 2) rd wr) :=
  ⟨_, _, rfl⟩

/-- Coherence: `record_event` mutates the store exactly as its one-action trace does. -/
theorem record_event_eq_trace (m : Monitor) (now : ℚ) (n : String) :
    (m.record_event now n).1.metrics =
      applyActs m.metrics (recordActs (now - m.start_time) n) := rfl

/-! ### Lemmas on the duration map -/

theorem qtMem_false_iff {qt : List (String × List ℚ)} {name : String} :
    qtMem qt name = false ↔ ∀ p ∈ qt, p.1 ≠ name := by
  simp [qtMem, List.any_eq_false]

theorem qtGet_eq_nil_of_not_mem {qt : List (String × List ℚ)} {name : String}
    (h : qtMem qt name = false) : qtGet qt name = [] := by
  unfold qtGet
  have hf : qt.find? (fun p => p.1 = name) = none := by
    simp only [List.find?_eq_none, decide_eq_true_eq]
    exact qtMem_false_iff.mp h
  rw [hf]

theorem qtGet_map_set {qt : List (String × List ℚ)} {name : String}
    {v : List ℚ} (h : qtMem qt name = true) :
    qtGet (qt.map fun p => if p.1 = name then (p.1, v) else p) name = v := by
  induction qt with
  | nil => simp [qtMem] at h
  | cons q rest ih =>
    by_cases hq : q.1 = name
    · simp [qtGet, List.map_cons, List.find?_cons, hq]
    · have hrest : qtMem rest name = true := by
        simpa [qtMem, List.any_cons, hq] using h
      have := ih hrest
      simpa [qtGet, List.map_cons, List.find?_cons, hq] using this

theorem qtGet_append_fresh {qt : List (String × List ℚ)} {name : String}
    {v : List ℚ} (h : qtMem qt name = false) :
    qtGet (qt ++ [(name, v)]) name = v := by
  induction qt with
  | nil => simp [qtGet]
  | cons q rest ih =>
    have hq : ¬ q.1 = name := by
      simpa using (qtMem_false_iff.mp h) q (List.mem_cons_self q rest)
    have hrest : qtMem rest name = false := by
      rw [qtMem_false_iff]
      intro p hp
      exact (qtMem_false_iff.mp h) p (List.mem_cons_of_mem q hp)
    have := ih hrest
    simpa [qtGet, List.cons_append, List.find?_cons, hq] using this

/-- Reading the key just written yields the written value (for both the
overwrite and the fresh-key branch of the dict store). -/
theorem qtGet_qtSet_self (qt : List (String × List ℚ)) (name : String)
    (v : List ℚ) : qtGet (qtSet qt name v) name = v := by
  unfold qtSet
  by_cases h : qtMem qt name = true
  · rw [if_pos h]; exact qtGet_map_set h
  · rw [if_neg h]
    exact qtGet_append_fresh (Bool.eq_false_iff.mpr h)

/-- The ensure-key step of `record_query` (lines 123–124) does not change
the value read back for the key. -/
theorem qtGet_ensure (qt : List (String × List ℚ)) (name : String) :
    qtGet (if qtMem qt name then qt else qtSet qt name []) name =
      qtGet qt name := by
  by_cases hm : qtMem qt name = true
  · rw [if_pos hm]
  · rw [if_neg hm, qtGet_qtSet_self,
      qtGet_eq_nil_of_not_mem (Bool.eq_false_iff.mpr hm)]

/-- A key is present after storing to it. -/
theorem qtMem_qtSet_self (qt : List (String × List ℚ)) (name : String)
    (v : List ℚ) : qtMem (qtSet qt name v) name = true := by
  unfold qtSet
  by_cases h : qtMem qt name = true
  · rw [if_pos h]
    simp only [qtMem, List.any_map, List.any_eq_true] at h ⊢
    obtain ⟨p, hp, hpe⟩ := h
    refine ⟨p, hp, ?_⟩
    simp only [Function.comp_apply]
    by_cases hp1 : p.1 = name <;> simp [hp1] at hpe ⊢
  · rw [if_neg h]
    simp [qtMem, List.any_append]

/-! ### Monotonicity lemmas -/

/-- Appending a fresh value between the old bound and the new bound
preserves `monoUpTo`. -/
theorem monoUpTo_append {l : List ℚ} {b c v : ℚ} (h : monoUpTo l b)
    (hbv : b ≤ v) (hvc : v ≤ c) : monoUpTo (l ++ [v]) c := by
  obtain ⟨hc, hb⟩ := h
  constructor
  · rw [List.chain'_append]
    refine ⟨hc, List.chain'_singleton v, ?_⟩
    intro x hx y hy
    rw [List.head?_cons, Option.mem_some_iff] at hy
    subst hy
    exact le_trans (hb x (List.mem_of_mem_getLast? hx)) hbv
  · intro x hx
    rcases List.mem_append.mp hx with h | h
    · exact le_trans (hb x h) (le_trans hbv hvc)
    · rw [List.mem_singleton] at h; subst h; exact hvc

/-- A `monoUpTo` bound can be relaxed upward. -/
theorem monoUpTo_mono {l : List ℚ} {b c : ℚ} (h : monoUpTo l b) (hbc : b ≤ c) :
    monoUpTo l c :=
  ⟨h.1, fun x hx => le_trans (h.2 x hx) hbc⟩

/-- The invariant tolerates advancing the external clock. -/
theorem chrono_mono {m : Monitor} {t t' : ℚ} (h : Chrono m t) (ht : t ≤ t') :
    Chrono m t' :=
  ⟨monoUpTo_mono h.1 (sub_le_sub_right ht _),
   monoUpTo_mono h.2 (sub_le_sub_right ht _)⟩

/-- One `capture_point` preserves the monotonicity invariant when the probe
clock has not gone backward. -/
theorem chrono_capture {m : Monitor} {t : ℚ} (p : ProbeReading)
    (h : Chrono m t) (ht : t ≤ p.now) : Chrono (m.capture_point p) p.now := by
  obtain ⟨hts, hev⟩ := h
  constructor
  · show monoUpTo (m.metrics.timestamp ++ [p.now - m.start_time])
      (p.now - m.start_time)
    exact monoUpTo_append hts (sub_le_sub_right ht _) le_rfl
  · show monoUpTo (m.metrics.events.map Prod.fst) (p.now - m.start_time)
    exact monoUpTo_mono hev (sub_le_sub_right ht _)

/-- One `record_event` preserves the monotonicity invariant when the clock
has not gone backward. -/
theorem chrono_record_event {m : Monitor} {t now : ℚ} (name : String)
    (h : Chrono m t) (ht : t ≤ now) :
    Chrono (m.record_event now name).1 now := by
  obtain ⟨hts, hev⟩ := h
  constructor
  · show monoUpTo m.metrics.timestamp (now - m.start_time)
    exact monoUpTo_mono hts (sub_le_sub_right ht _)
  · show monoUpTo
      ((m.metrics.events ++ [(now - m.start_time, name)]).map Prod.fst)
      (now - m.start_time)
    rw [List.map_append]
    exact monoUpTo_append hev (sub_le_sub_right ht _) le_rfl

/-- One `record_query` preserves the monotonicity invariant when the clock
readings it consumes do not go backward. -/
theorem chrono_record_query {ε α : Type} {m : Monitor} {t t0 t1 t2 t3 : ℚ}
    (name : String) (op : OpResult ε α)
    (h : Chrono m t) (h0 : t ≤ t0) (h3 : t0 ≤ t3) :
    Chrono (m.record_query name t0 t1 t2 t3 op).1 t3 := by
  have h1 : Chrono (m.record_event t0 ("Query start: " ++ name)).1 t0 :=
    chrono_record_event _ h h0
  cases op with
  | error e => exact chrono_mono h1 h3
  | ok a =>
    show Chrono ((Monitor.record_event _ t3 _).1) t3
    exact chrono_record_event _ h1 h3

/-! ### Claim theorems -/

/-- C2, counterexample: `record_event` computes and appends the elapsed
value `now − origin`, but line 109 returns the absolute reading `now`, not
that elapsed value.  Concretely, for a monitor with origin 5 and an event
recorded at clock reading 7, the appended entry is `(2, "A")` while the
returned value is `7 ≠ 2`. -/
theorem record_event_returns_absolute_reading :
    (m0.record_event 7 "A").2 = 7 ∧
    (m0.record_event 7 "A").1.metrics.events = [(2, "A")] ∧
    (m0.record_event 7 "A").2 ≠ 7 - m0.start_time := by
  refine ⟨rfl, ?_, ?_⟩
  · show [] ++ [((7 : ℚ) - 5, "A")] = [(2, "A")]
    norm_num
  · show (7 : ℚ) ≠ 7 - 5
    norm_num

/-- C2, amended: for every name, `record_event` computes
`elapsed = now − origin`, appends `(elapsed, name)` to the events sequence
(touching no other series), and returns the absolute clock reading `now` —
that is, `origin + elapsed` rather than `elapsed` itself. -/
theorem record_event_appends_elapsed (m : Monitor) (now : ℚ) (name : String) :
    (m.record_event now name).1.metrics.events =
      m.metrics.events ++ [(now - m.start_time, name)] ∧
    (m.record_event now name).2 = m.start_time + (now - m.start_time) ∧
    (m.record_event now name).1.metrics.timestamp = m.metrics.timestamp ∧
    (m.record_event now name).1.metrics.query_times_ms =
      m.metrics.query_times_ms ∧
    (m.record_event now name).1.start_time = m.start_time := by
  refine ⟨rfl, ?_, rfl, rfl, rfl⟩
  show now = m.start_time + (now - m.start_time)
  ring

/-- C3: when the wrapped operation raises, `record_query` propagates the
failure unchanged; the final state carries the "Query start" event, the
duration map is untouched, and every event not already present is the
start event (so no "Query end" event was added). -/
theorem record_query_failure_propagates (ε α : Type) (m : Monitor)
    (name : String) (t0 t1 t2 t3 : ℚ) (e : ε) :
    (m.record_query (α := α) name t0 t1 t2 t3 (.error e)).2 = .error e ∧
    (m.record_query (α := α) name t0 t1 t2 t3 (.error e)).1.metrics.events =
      m.metrics.events ++ [(t0 - m.start_time, "Query start: " ++ name)] ∧
    (m.record_query (α := α) name t0 t1 t2 t3
        (.error e)).1.metrics.query_times_ms = m.metrics.query_times_ms ∧
    ∀ ev ∈ (m.record_query (α := α) name t0 t1 t2 t3
        (.error e)).1.metrics.events,
      ev ∉ m.metrics.events → ev.2 = "Query start: " ++ name := by
  refine ⟨rfl, rfl, rfl, ?_⟩
  intro ev hev hnot
  rcases List.mem_append.mp hev with h | h
  · exact absurd h hnot
  · rw [List.mem_singleton] at h
    rw [h]

/-- C4: when the wrapped operation succeeds, `record_query` returns the
operation's result paired with `duration_ms = (t2 − t1)·1000 ≥ 0`, appends
the duration to `query_times_ms[name]` (creating the sequence on first
use, so the key exists afterwards and the sequence grows by exactly one),
and the final state is one `record_event` of the "Query end" event applied
to a state that already stores the new duration. -/
theorem record_query_success_records (ε α : Type) (m : Monitor)
    (name : String) (t0 t1 t2 t3 : ℚ) (a : α) (h : t1 ≤ t2) :
    (m.record_query (ε := ε) name t0 t1 t2 t3 (.ok a)).2 =
      .ok (a, (t2 - t1) * 1000) ∧
    0 ≤ (t2 - t1) * 1000 ∧
    qtGet (m.record_query (ε := ε) name t0 t1 t2 t3
        (.ok a)).1.metrics.query_times_ms name =
      qtGet m.metrics.query_times_ms name ++ [(t2 - t1) * 1000] ∧
    (qtGet (m.record_query (ε := ε) name t0 t1 t2 t3
        (.ok a)).1.metrics.query_times_ms name).length =
      (qtGet m.metrics.query_times_ms name).length + 1 ∧
    qtMem (m.record_query (ε := ε) name t0 t1 t2 t3
        (.ok a)).1.metrics.query_times_ms name = true ∧
    (m.record_query (ε := ε) name t0 t1 t2 t3 (.ok a)).1.metrics.events =
      m.metrics.events ++
        [(t0 - m.start_time, "Query start: " ++ name),
         (t3 - m.start_time, "Query end: " ++ name ++ " (" ++
           toString ((t2 - t1) * 1000) ++ "ms)")] ∧
    ∃ mStored : Monitor,
      (m.record_query (ε := ε) name t0 t1 t2 t3 (.ok a)).1 =
        (mStored.record_event t3 ("Query end: " ++ name ++ " (" ++
          toString ((t2 - t1) * 1000) ++ "ms)")).1 ∧
      qtGet mStored.metrics.query_times_ms name =
        qtGet m.metrics.query_times_ms name ++ [(t2 - t1) * 1000] := by
  have hq2 : qtGet (m.record_query (ε := ε) name t0 t1 t2 t3
      (.ok a)).1.metrics.query_times_ms name =
      qtGet m.metrics.query_times_ms name ++ [(t2 - t1) * 1000] := by
    show qtGet (qtSet _ name (qtGet _ name ++ [(t2 - t1) * 1000])) name = _
    rw [qtGet_qtSet_self, qtGet_ensure]
    rfl
  refine ⟨rfl, mul_nonneg (by linarith) (by norm_num), hq2, ?_, ?_, ?_, ?_⟩
  · rw [hq2, List.length_append, List.length_singleton]
  · show qtMem (qtSet _ name _) name = true
    exact qtMem_qtSet_self _ name _
  · show (m.metrics.events ++ [(t0 - m.start_time, _)]) ++
      [(t3 - m.start_time, _)] = _
    rw [List.append_assoc]
    rfl
  · refine ⟨_, rfl, ?_⟩
    show qtGet (qtSet _ name (qtGet _ name ++ [(t2 - t1) * 1000])) name = _
    rw [qtGet_qtSet_self, qtGet_ensure]
    rfl

/-- C4 witness: a concrete successful query on the fresh monitor `m0`
(clock readings 6, 6, 7, 8): the wrapper returns `(result, 1000)` and
stores the 1000 ms duration under the new key. -/
theorem record_query_success_records_witness :
    (m0.record_query (ε := Unit) "Q" 6 6 7 8 (.ok ())).2 =
      .ok ((), ((7 : ℚ) - 6) * 1000) ∧
    qtGet (m0.record_query (ε := Unit) "Q" 6 6 7 8
        (.ok ())).1.metrics.query_times_ms "Q" =
      qtGet m0.metrics.query_times_ms "Q" ++ [((7 : ℚ) - 6) * 1000] := by
  have h := record_query_success_records Unit Unit m0 "Q" 6 6 7 8 ()
    (by norm_num)
  exact ⟨h.1, h.2.2.1⟩

/-- C5: on every capture, the reported disk rates equal
`(r1 − r0) / dt` scaled to MB/s when `dt > 0` (and the divisor is then
nonzero), are 0 when the cumulative counter did not move, degrade to 0 when
`dt ≤ 0` instead of dividing, the last-sample baseline is updated
unconditionally to the probe's counters and time, and construction seeds
the baseline before any capture. -/
theorem capture_point_disk_rate (m : Monitor) (p : ProbeReading) :
    ((m.capture_point p).last_disk_io = p.disk_io ∧
     (m.capture_point p).last_disk_time = p.now) ∧
    (p.now - m.last_disk_time > 0 →
      (m.capture_point p).metrics.disk_read_mb = m.metrics.disk_read_mb ++
        [(p.disk_io.read_bytes - m.last_disk_io.read_bytes) /
          (p.now - m.last_disk_time) / 1024 ^ 2] ∧
      (m.capture_point p).metrics.disk_write_mb = m.metrics.disk_write_mb ++
        [(p.disk_io.write_bytes - m.last_disk_io.write_bytes) /
          (p.now - m.last_disk_time) / 1024 ^ 2] ∧
      p.now - m.last_disk_time ≠ 0) ∧
    (¬ p.now - m.last_disk_time > 0 →
      (m.capture_point p).metrics.disk_read_mb =
        m.metrics.disk_read_mb ++ [0] ∧
      (m.capture_point p).metrics.disk_write_mb =
        m.metrics.disk_write_mb ++ [0]) ∧
    (p.disk_io.read_bytes = m.last_disk_io.read_bytes →
      (m.capture_point p).metrics.disk_read_mb =
        m.metrics.disk_read_mb ++ [0]) ∧
    (p.disk_io.write_bytes = m.last_disk_io.write_bytes →
      (m.capture_point p).metrics.disk_write_mb =
        m.metrics.disk_write_mb ++ [0]) ∧
    ∀ (od : String) (tA tB : ℚ) (d : DiskIO) (si : SystemInfo),
      (Monitor.init od tA tB d si).last_disk_io = d ∧
      (Monitor.init od tA tB d si).last_disk_time = tB := by
  refine ⟨⟨rfl, rfl⟩, ?_, ?_, ?_, ?_, fun od tA tB d si => ⟨rfl, rfl⟩⟩
  · intro hdt
    refine ⟨?_, ?_, ne_of_gt hdt⟩
    · show m.metrics.disk_read_mb ++ [if p.now - m.last_disk_time > 0
        then _ else 0] = _
      rw [if_pos hdt]
    · show m.metrics.disk_write_mb ++ [if p.now - m.last_disk_time > 0
        then _ else 0] = _
      rw [if_pos hdt]
  · intro hdt
    constructor
    · show m.metrics.disk_read_mb ++ [if p.now - m.last_disk_time > 0
        then _ else 0] = _
      rw [if_neg hdt]
    · show m.metrics.disk_write_mb ++ [if p.now - m.last_disk_time > 0
        then _ else 0] = _
      rw [if_neg hdt]
  · intro hr
    show m.metrics.disk_read_mb ++ [if p.now - m.last_disk_time > 0
      then (p.disk_io.read_bytes - m.last_disk_io.read_bytes) /
        (p.now - m.last_disk_time) / 1024 ^ 2 else 0] = _
    rw [hr, sub_self, zero_div, zero_div, ite_self]
  · intro hw
    show m.metrics.disk_write_mb ++ [if p.now - m.last_disk_time > 0
      then (p.disk_io.write_bytes - m.last_disk_io.write_bytes) /
        (p.now - m.last_disk_time) / 1024 ^ 2 else 0] = _
    rw [hw, sub_self, zero_div, zero_div, ite_self]

/-- C5 witness: the concrete capture `pW` on `m0` has `dt = 2 > 0`, reports
a read rate of `(2097152 − 0)/2/1024² ` MB/s, and an unchanged write counter
reports rate 0. -/
theorem capture_point_disk_rate_witness :
    pW.now - m0.last_disk_time > 0 ∧
    (m0.capture_point pW).metrics.disk_read_mb = m0.metrics.disk_read_mb ++
      [(pW.disk_io.read_bytes - m0.last_disk_io.read_bytes) /
        (pW.now - m0.last_disk_time) / 1024 ^ 2] ∧
    (m0.capture_point pW).metrics.disk_write_mb =
      m0.metrics.disk_write_mb ++ [0] := by
  have hdt : pW.now - m0.last_disk_time > 0 := by
    show (7 : ℚ) - 5 > 0
    norm_num
  have h := capture_point_disk_rate m0 pW
  exact ⟨hdt, (h.2.1 hdt).1, h.2.2.2.2.1 rfl⟩

/-- C6: the empty-series guards hold — an empty duration map yields an
empty summary list, empty sample arrays yield average and peak 0, the query
plot returns early — but the report's total-duration line (line 298)
evaluates `metrics["timestamp"][-1]`, which raises `IndexError` on a
zero-sample run, so report generation does crash on empty `samples`. -/
theorem report_generation_empty_series :
    querySummaries [] = .ok [] ∧
    avgOrZero [] = 0 ∧
    maxOrZero [] = 0 ∧
    plot_query_avg_times [] = .ok [] ∧
    generate_html_summary Metrics.init = .error "IndexError" := by
  refine ⟨rfl, ?_, rfl, ?_, rfl⟩
  · simp [avgOrZero]
  · simp [plot_query_avg_times]

/-- C8: `stop_monitoring` clears the running flag, records the
"Monitoring stopped" event whatever the join outcome (the state is
independent of whether the loop exited in time), and when a background
thread exists the join it attempts is bounded by a 2-second timeout. -/
theorem stop_monitoring_flag_event_timeout (m : Monitor) (now : ℚ)
    (b : Bool) :
    (m.stop_monitoring now b).monitor.monitoring = false ∧
    (m.stop_monitoring now b).monitor.metrics.events =
      m.metrics.events ++ [(now - m.start_time, "Monitoring stopped")] ∧
    m.stop_monitoring now b = m.stop_monitoring now true ∧
    (m.monitor_thread.isSome = true →
      (m.stop_monitoring now b).join_timeout = some 2) := by
  refine ⟨rfl, rfl, rfl, ?_⟩
  intro h
  cases hmt : m.monitor_thread with
  | some u => simp [Monitor.stop_monitoring, hmt]
  | none => rw [hmt] at h; simp at h

/-- C8 witness: stopping the started monitor `mStarted` at clock reading 8
with a timed-out join still attempts the 2-second bounded join. -/
theorem stop_monitoring_flag_event_timeout_witness :
    (mStarted.stop_monitoring 8 false).join_timeout = some 2 :=
  (stop_monitoring_flag_event_timeout mStarted 8 false).2.2.2 rfl

/-- C10: stopping a monitor on which `start_monitoring` never ran skips the
join (the `hasattr` guard finds no thread attribute, so nothing can raise),
still appends the "Monitoring stopped" event, and clears the flag. -/
theorem stop_monitoring_never_started (od : String) (tA tB now : ℚ)
    (d : DiskIO) (si : SystemInfo) (b : Bool) :
    ((Monitor.init od tA tB d si).stop_monitoring now b).join_timeout =
      none ∧
    ((Monitor.init od tA tB d si).stop_monitoring
        now b).monitor.metrics.events =
      [(now - tA, "Monitoring stopped")] ∧
    ((Monitor.init od tA tB d si).stop_monitoring now b).monitor.monitoring =
      false :=
  ⟨rfl, rfl, rfl⟩

/-- C9: assuming the clock readings never go backward, the elapsed values
are monotonically non-decreasing within `samples` and within `events`
individually, and this invariant is preserved by `capture_point`,
`record_event`, and `record_query`. -/
theorem elapsed_monotone_invariant :
    (∀ (m : Monitor) (p : ProbeReading) (t : ℚ),
      Chrono m t → t ≤ p.now → Chrono (m.capture_point p) p.now) ∧
    (∀ (m : Monitor) (now t : ℚ) (name : String),
      Chrono m t → t ≤ now → Chrono (m.record_event now name).1 now) ∧
    (∀ (ε α : Type) (m : Monitor) (name : String) (t t0 t1 t2 t3 : ℚ)
      (op : OpResult ε α), Chrono m t → t ≤ t0 → t0 ≤ t3 →
      Chrono (m.record_query name t0 t1 t2 t3 op).1 t3) :=
  ⟨fun _ p _ h ht => chrono_capture p h ht,
   fun _ _ _ name h ht => chrono_record_event name h ht,
   fun _ _ _ name _ _ _ _ _ op h h0 h3 => chrono_record_query name op h h0 h3⟩

/-- C9 witness: the invariant holds for the fresh monitor `m0` at its
construction instant and is carried through a concrete capture, event and
query whose clock readings advance. -/
theorem elapsed_monotone_invariant_witness :
    Chrono (m0.capture_point pW) pW.now ∧
    Chrono (m0.record_event 7 "A").1 7 ∧
    Chrono (m0.record_query (ε := Unit) "Q" 6 6 7 8 (.ok ())).1 8 := by
  refine ⟨?_, ?_, ?_⟩
  · exact elapsed_monotone_invariant.1 m0 pW 5 (by decide)
      (by show (5 : ℚ) ≤ 7; norm_num)
  · exact elapsed_monotone_invariant.2.1 m0 7 5 "A" (by decide)
      (by norm_num)
  · exact elapsed_monotone_invariant.2.2 Unit Unit m0 "Q" 5 6 6 7 8 (.ok ())
      (by decide) (by norm_num) (by norm_num)

/-- C1, counterexample: the store has no critical section around the six
per-field appends of one sample — under per-append atomicity (the grain
CPython serializes), the foreground event append may land between them, and
a snapshot taken there observes the appended event together with a
half-written sample: `timestamp` already has the new entry while the five
other sample arrays do not. -/
theorem snapshot_observes_half_written_sample :
    Interleave (captureActs 1 50 10 100 0 0) (recordActs (3/2) "E")
      cexTrace ∧
    (applyActs Metrics.init (cexTrace.take 2)).events = [((3 : ℚ)/2, "E")] ∧
    (applyActs Metrics.init (cexTrace.take 2)).timestamp = [1] ∧
    ¬ sampleAligned (applyActs Metrics.init (cexTrace.take 2)) := by
  refine ⟨?_, rfl, rfl, by decide⟩
  exact .left _ (.right _ (.left _ (.left _ (.left _ (.left _
    (.left _ .nil))))))

/-- C1, amended: each individual append is a single indivisible action, so
for every interleaving of the two contexts' appends nothing is lost or
duplicated — the final `events` and `timestamp` series are the initial
contents followed by exactly the appended entries, and each context's
entries appear in their own order — but one `capture_point` issues six
separate appends, so a snapshot between them can observe a half-written
sample. -/
theorem interleaved_appends_lose_nothing (ms : Metrics) (l r t : List Act)
    (h : Interleave l r t) :
    (applyActs ms t).events = ms.events ++ extractEvents t ∧
    (applyActs ms t).timestamp = ms.timestamp ++ extractTimestamps t ∧
    Interleave (extractEvents l) (extractEvents r) (extractEvents t) ∧
    Interleave (extractTimestamps l) (extractTimestamps r)
      (extractTimestamps t) :=
  ⟨applyActs_events ms t, applyActs_timestamp ms t,
   interleave_filterMap actEvent? h, interleave_filterMap actTimestamp? h⟩

/-- C1 amended witness: the concrete interleaving `cexTrace` of one capture
and one event append yields exactly the union of both contexts' entries. -/
theorem interleaved_appends_lose_nothing_witness :
    (applyActs Metrics.init cexTrace).events =
      Metrics.init.events ++ extractEvents cexTrace ∧
    Interleave (extractEvents (captureActs 1 50 10 100 0 0))
      (extractEvents (recordActs (3/2) "E")) (extractEvents cexTrace) := by
  have h := interleaved_appends_lose_nothing Metrics.init
    (captureActs 1 50 10 100 0 0) (recordActs (3/2) "E") cexTrace
    (.left _ (.right _ (.left _ (.left _ (.left _ (.left _
      (.left _ .nil)))))))
  exact ⟨h.1, h.2.2.1⟩

/-- C7, counterexample: the document `save_metrics` writes does not have the
spec's shape — its `metrics` object holds six parallel arrays plus
`query_times_ms`, not `samples`/`query_durations`, and its `system_info`
carries `python_version` and `duckdb_version`, not `engine_version`. -/
theorem save_metrics_doc_shape_differs : ¬ specDocShape m0.save_metrics_doc := by
  decide

/-- C7, amended: the serialized document has the shape
`{ system_info: {os, python_version, cpu_count, total_memory_gb,
duckdb_version}, metrics: {timestamp, cpu_percent, memory_percent,
memory_used_mb, disk_read_mb, disk_write_mb, query_times_ms, events} }`,
with every array preserving the insertion order of the corresponding
series. -/
theorem save_metrics_doc_actual_shape (m : Monitor) :
    m.save_metrics_doc.keys = ["system_info", "metrics"] ∧
    (m.save_metrics_doc.get "system_info").map JVal.keys =
      some ["os", "python_version", "cpu_count", "total_memory_gb",
            "duckdb_version"] ∧
    (m.save_metrics_doc.get "metrics").map JVal.keys =
      some ["timestamp", "cpu_percent", "memory_percent", "memory_used_mb",
            "disk_read_mb", "disk_write_mb", "query_times_ms", "events"] ∧
    ((m.save_metrics_doc.get "metrics").bind fun j => j.get "events") =
      some (.arr (m.metrics.events.map eventToJson)) ∧
    ((m.save_metrics_doc.get "metrics").bind fun j => j.get "timestamp") =
      some (.arr (m.metrics.timestamp.map .num)) ∧
    ((m.save_metrics_doc.get "metrics").bind fun j =>
        j.get "query_times_ms") =
      some (.obj (m.metrics.query_times_ms.map fun p =>
        (p.1, .arr (p.2.map .num)))) :=
  ⟨rfl, rfl, rfl, rfl, rfl, rfl⟩

end PerfMon
